import Mathlib

/-!
Verification of the `parsec` component-storage layer (`src/storage.rs`):
the entity identity model and the two storage strategies, `VecStorage`
(dense, array-backed) and `HashMapStorage` (sparse, map-backed).
-/

set_option linter.unusedVariables false

/-- Modelled from the spec: the `Generation` type (crate root, not under
`src/`) is an unsigned integer counter disambiguating successive occupants
of a recycled index. -/
abbrev Generation : Type := Nat

/-- Modelled from the spec: `Entity` (crate root, not under `src/`) is an
opaque handle `(index, generation)`; a pure value type whose equality
requires both fields equal, with accessors for each field. -/
structure Entity where
  index : Nat
  generation : Nat
deriving DecidableEq

/-- Accessor for the index field (`Entity::get_id` in the source). -/
def Entity.get_id (e : Entity) : Nat := e.index

/-- Accessor for the generation field (`Entity::get_gen` in the source). -/
def Entity.get_gen (e : Entity) : Nat := e.generation

/-- `VecStorage<T>(pub Vec<Option<(Generation, T)>>)`: dense storage, a
vector of optional `(generation, value)` slots indexed by entity index. -/
abbrev VecStorage (T : Type) : Type := List (Option (Nat × T))

namespace VecStorage

/-- `VecStorage::new`: `VecStorage(Vec::new())`. -/
def new (T : Type) : VecStorage T := []

/-- The growth loop inside `VecStorage::insert`:
`while self.0.len() <= entity.get_id() { self.0.push(None); }`.
It pushes `None` until the length exceeds the target index, i.e. appends
exactly `id + 1 - len` empty slots (none when the length already exceeds
`id`, by truncated subtraction). -/
def grow (s : VecStorage T) (id : Nat) : VecStorage T :=
  s ++ List.replicate (id + 1 - s.length) none

/-- `VecStorage::get`: look up the slot at `entity.get_id()`; yield the
value only when the slot is occupied and the stored generation equals
`entity.get_gen()`. -/
def get (s : VecStorage T) (entity : Entity) : Option T :=
  (s[entity.get_id]?).bind fun x =>
    match x with
    | some (gen, value) => if gen = entity.get_gen then some value else none
    | none => none

/-- `VecStorage::get_mut`: same lookup predicate as `get`; in this pure
embedding the returned mutable reference is observed as the value it
points to. -/
def get_mut (s : VecStorage T) (entity : Entity) : Option T :=
  (s[entity.get_id]?).bind fun x =>
    match x with
    | some (gen, value) => if gen = entity.get_gen then some value else none
    | none => none

/-- A caller writing through the reference returned by `VecStorage::get_mut`:
when the lookup succeeds the value in the slot is replaced by `f value`
(the slot's generation is untouched); otherwise nothing changes. -/
def modify (s : VecStorage T) (entity : Entity) (f : T → T) : VecStorage T :=
  match s[entity.get_id]? with
  | some (some (gen, value)) =>
      if gen = entity.get_gen then
        List.set s entity.get_id (some (gen, f value))
      else s
  | _ => s

/-- `VecStorage::insert`: grow the vector until its length exceeds
`entity.get_id()`, then unconditionally write
`Some((entity.get_gen(), value))` into that slot. -/
def insert (s : VecStorage T) (entity : Entity) (value : T) : VecStorage T :=
  List.set (grow s entity.get_id) entity.get_id (some (entity.get_gen, value))

/-- `VecStorage::remove`: returns the removed value together with the
updated storage. Out-of-range index: no effect. In-range occupied slot
with a mismatched generation: early `return None`, no effect. Otherwise
`x.take()` empties the slot and yields the value it held, if any. -/
def remove (s : VecStorage T) (entity : Entity) : Option T × VecStorage T :=
  match s[entity.get_id]? with
  | none => (none, s)
  | some (some (gen, value)) =>
      if gen ≠ entity.get_gen then (none, s)
      else (some value, List.set s entity.get_id none)
  | some none => (none, List.set s entity.get_id none)

/-- `StorageBase::del` for `VecStorage`:
`self.0.get_mut(entity.get_id()).map(|x| *x = None)` — clear the slot at
the entity's index when it exists, regardless of the stored generation. -/
def del (s : VecStorage T) (entity : Entity) : VecStorage T :=
  match s[entity.get_id]? with
  | none => s
  | some _ => List.set s entity.get_id none

end VecStorage

/-- `HashMapStorage<T>(pub HashMap<Entity, T, ...>)`: sparse storage, a hash
map keyed by the full entity value (index and generation together),
embedded as an association list with at most one binding per key. -/
abbrev HashMapStorage (T : Type) : Type := List (Entity × T)

namespace HashMapStorage

/-- `HashMapStorage::new`: an empty map. -/
def new (T : Type) : HashMapStorage T := []

/-- `HashMap::get(&entity)`: the value bound to the exact entity key. -/
def get (m : HashMapStorage T) (entity : Entity) : Option T :=
  (m.find? fun p => p.1 = entity).map Prod.snd

/-- `HashMapStorage::get_mut`: same lookup as `get`; the mutable reference
is observed as the value it points to. -/
def get_mut (m : HashMapStorage T) (entity : Entity) : Option T :=
  (m.find? fun p => p.1 = entity).map Prod.snd

/-- `HashMap::insert(entity, value)`: bind the exact entity key to `value`,
replacing the previous binding for that key if present. -/
def insert (m : HashMapStorage T) (entity : Entity) (value : T) : HashMapStorage T :=
  (entity, value) :: m.eraseP (fun p => p.1 = entity)

/-- `HashMap::remove(&entity)`: drop the binding for the exact entity key
and return its value, if present. -/
def remove (m : HashMapStorage T) (entity : Entity) : Option T × HashMapStorage T :=
  (get m entity, m.eraseP (fun p => p.1 = entity))

/-- `StorageBase::del` for `HashMapStorage`: `self.0.remove(&entity)` with
the result discarded — drop the binding for the exact entity key. -/
def del (m : HashMapStorage T) (entity : Entity) : HashMapStorage T :=
  m.eraseP (fun p => p.1 = entity)

end HashMapStorage

/-- One call through the `Storage<T>` / `StorageBase` interface of the
dense strategy, as issued by the registry or a task. -/
inductive StorageOp (T : Type) where
  | get (e : Entity)
  | get_mut (e : Entity) (f : T → T)
  | insert (e : Entity) (v : T)
  | remove (e : Entity)
  | del (e : Entity)

/-- The state reached by a dense storage after one interface call (`get`
reads only; `get_mut` is observed through the write the caller performs
via the returned reference). -/
def VecStorage.apply (s : VecStorage T) : StorageOp T → VecStorage T
  | .get _ => s
  | .get_mut e f => VecStorage.modify s e f
  | .insert e v => VecStorage.insert s e v
  | .remove e => (VecStorage.remove s e).2
  | .del e => VecStorage.del s e

/-- The state reached by a dense storage after a sequence of interface
calls. -/
def VecStorage.run (s : VecStorage T) : List (StorageOp T) → VecStorage T
  | [] => s
  | op :: ops => VecStorage.run (VecStorage.apply s op) ops

namespace VecStorage

theorem length_grow (s : VecStorage T) (id : Nat) :
    (grow s id).length = max s.length (id + 1) := by
  simp [grow]
  omega

theorem id_lt_length_grow (s : VecStorage T) (id : Nat) :
    id < (grow s id).length := by
  rw [length_grow]
  omega

theorem getElem?_grow_of_lt (s : VecStorage T) (id : Nat) {j : Nat}
    (h : j < s.length) : (grow s id)[j]? = s[j]? :=
  List.getElem?_append_left h

theorem getElem?_insert_self (s : VecStorage T) (e : Entity) (v : T) :
    (insert s e v)[e.get_id]? = some (some (e.get_gen, v)) :=
  List.getElem?_set_self (id_lt_length_grow s e.get_id)

theorem get_insert_self (s : VecStorage T) (e : Entity) (v : T) :
    get (insert s e v) e = some v := by
  simp [get, getElem?_insert_self]

theorem length_insert (s : VecStorage T) (e : Entity) (v : T) :
    (insert s e v).length = max s.length (e.get_id + 1) := by
  simp [insert, length_grow]

theorem getElem?_eq_none_of_le {s : VecStorage T} {id : Nat}
    (h : s.length ≤ id) : s[id]? = none :=
  List.getElem?_eq_none h

theorem get_of_le_id {s : VecStorage T} {e : Entity}
    (h : s.length ≤ e.get_id) : get s e = none := by
  simp [get, getElem?_eq_none_of_le h]

theorem get_mut_of_le_id {s : VecStorage T} {e : Entity}
    (h : s.length ≤ e.get_id) : get_mut s e = none := by
  simp [get_mut, getElem?_eq_none_of_le h]

theorem remove_of_le_id {s : VecStorage T} {e : Entity}
    (h : s.length ≤ e.get_id) : remove s e = (none, s) := by
  unfold remove
  rw [getElem?_eq_none_of_le h]

theorem del_of_le_id {s : VecStorage T} {e : Entity}
    (h : s.length ≤ e.get_id) : del s e = s := by
  unfold del
  rw [getElem?_eq_none_of_le h]

theorem getElem?_grow (s : VecStorage T) (id j : Nat) (hj : j ≤ id) :
    (grow s id)[j]? = if j < s.length then s[j]? else some none := by
  by_cases hlt : j < s.length
  · rw [getElem?_grow_of_lt s id hlt]
    simp [hlt]
  · push_neg at hlt
    rw [grow, List.getElem?_append_right hlt, List.getElem?_replicate]
    have hj2 : j - s.length < id + 1 - s.length := by omega
    simp [hj2, Nat.not_lt.mpr hlt]

theorem get_insert_of_ne_id (s : VecStorage T) (e2 : Entity) (v : T)
    (e : Entity) (hne : e.get_id ≠ e2.get_id) :
    get (insert s e2 v) e = get s e := by
  unfold get
  have hset : (insert s e2 v)[e.get_id]? = (grow s e2.get_id)[e.get_id]? := by
    unfold insert
    exact List.getElem?_set_ne (Ne.symm hne)
  rw [hset]
  by_cases h1 : e.get_id < s.length
  · rw [getElem?_grow_of_lt s e2.get_id h1]
  · push_neg at h1
    rw [getElem?_eq_none_of_le h1]
    by_cases h2 : e.get_id ≤ e2.get_id
    · rw [getElem?_grow s e2.get_id e.get_id h2]
      simp [Nat.not_lt.mpr h1]
    · have hout : (grow s e2.get_id).length ≤ e.get_id := by
        rw [length_grow]
        omega
      rw [getElem?_eq_none_of_le hout]

theorem length_le_modify (s : VecStorage T) (e : Entity) (f : T → T) :
    s.length ≤ (modify s e f).length := by
  unfold modify
  split
  · split <;> simp
  · exact Nat.le_refl _

theorem length_le_insert (s : VecStorage T) (e : Entity) (v : T) :
    s.length ≤ (insert s e v).length := by
  rw [length_insert]
  omega

theorem length_le_remove (s : VecStorage T) (e : Entity) :
    s.length ≤ (remove s e).2.length := by
  unfold remove
  split
  · exact Nat.le_refl _
  · split <;> simp
  · simp

theorem length_le_del (s : VecStorage T) (e : Entity) :
    s.length ≤ (del s e).length := by
  unfold del
  split
  · exact Nat.le_refl _
  · simp

theorem length_le_apply (s : VecStorage T) (op : StorageOp T) :
    s.length ≤ (apply s op).length := by
  cases op with
  | get e => exact Nat.le_refl _
  | get_mut e f => exact length_le_modify s e f
  | insert e v => exact length_le_insert s e v
  | remove e => exact length_le_remove s e
  | del e => exact length_le_del s e

theorem length_le_run (s : VecStorage T) (ops : List (StorageOp T)) :
    s.length ≤ (run s ops).length := by
  induction ops generalizing s with
  | nil => exact Nat.le_refl _
  | cons op ops ih =>
      exact Nat.le_trans (length_le_apply s op) (ih (apply s op))

end VecStorage

namespace HashMapStorage

theorem not_key_of_get_none {m : HashMapStorage T} {e : Entity}
    (h : get m e = none) : ∀ p ∈ m, ¬ p.1 = e := by
  intro p hp
  have hf : m.find? (fun p => p.1 = e) = none := by
    simpa [get, Option.map_eq_none'] using h
  simpa using List.find?_eq_none.mp hf p hp

theorem eraseP_eq_self_of_get_none {m : HashMapStorage T} {e : Entity}
    (h : get m e = none) : m.eraseP (fun p => p.1 = e) = m := by
  apply List.eraseP_of_forall_not
  intro a ha
  simpa using not_key_of_get_none h a ha

theorem get_insert_same_key (m : HashMapStorage T) (e : Entity) (v : T) :
    get (insert m e v) e = some v := by
  simp [get, insert, List.find?_cons_of_pos]

end HashMapStorage

/-- C1: Insert/get round-trip — for every entity `e` and value `v`, in both
the dense (`VecStorage`) and sparse (`HashMapStorage`) strategies,
immediately after `insert(e, v)`, `get(e)` returns `v`. -/
theorem c1_insert_get_roundtrip {T : Type} (s : VecStorage T)
    (m : HashMapStorage T) (e : Entity) (v : T) :
    VecStorage.get (VecStorage.insert s e v) e = some v ∧
    HashMapStorage.get (HashMapStorage.insert m e v) e = some v :=
  ⟨VecStorage.get_insert_self s e v, HashMapStorage.get_insert_same_key m e v⟩

/-- C2: Dense generation gating — after `insert((i, g1), v1)` with
`g1 ≠ g2`, `get((i, g2))` returns `none`; and in general the dense `get`
returns a value exactly when the slot at the entity's index holds an entry
whose stored generation equals the entity's generation. -/
theorem c2_dense_generation_gating {T : Type} (s : VecStorage T)
    (i g1 g2 : Nat) (v1 : T) (h : g1 ≠ g2) (s2 : VecStorage T) (e : Entity)
    (v : T) :
    VecStorage.get (VecStorage.insert s ⟨i, g1⟩ v1) ⟨i, g2⟩ = none ∧
    (VecStorage.get s2 e = some v ↔
      s2[e.get_id]? = some (some (e.get_gen, v))) := by
  constructor
  · have hslot : (VecStorage.insert s ⟨i, g1⟩ v1)[i]? = some (some (g1, v1)) :=
      VecStorage.getElem?_insert_self s ⟨i, g1⟩ v1
    simp [VecStorage.get, Entity.get_id, Entity.get_gen, hslot, h]
  · cases hs : s2[e.get_id]? with
    | none => simp [VecStorage.get, hs]
    | some x =>
      match x with
      | none => simp [VecStorage.get, hs]
      | some (gen, val) =>
        by_cases hg : gen = e.get_gen
        · subst hg
          simp [VecStorage.get, hs]
        · simp [VecStorage.get, hs, hg]

/-- Witness for C2 at concrete inputs. -/
theorem c2_witness :
    (1 : Nat) ≠ 2 ∧
    (VecStorage.get (VecStorage.insert (VecStorage.new Nat) ⟨0, 1⟩ 5) ⟨0, 2⟩ = none ∧
     (VecStorage.get ([some (3, 7)] : VecStorage Nat) ⟨0, 3⟩ = some 7 ↔
       ([some (3, 7)] : VecStorage Nat)[0]? = some (some (3, 7)))) :=
  ⟨by decide,
   c2_dense_generation_gating (VecStorage.new Nat) 0 1 2 5 (by decide)
     [some (3, 7)] ⟨0, 3⟩ 7⟩

/-- C3: Dense insert is last-writer-wins, independent of generation — after
`insert((i, g1), A)` then `insert((i, g2), B)` with `g1 ≠ g2`, the slot at
`i` holds `(g2, B)`, `get((i, g2))` returns `B` and `get((i, g1))` returns
`none`. -/
theorem c3_dense_last_writer_wins {T : Type} (s : VecStorage T)
    (i g1 g2 : Nat) (A B : T) (h : g1 ≠ g2) :
    (VecStorage.insert (VecStorage.insert s ⟨i, g1⟩ A) ⟨i, g2⟩ B)[i]? =
      some (some (g2, B)) ∧
    VecStorage.get (VecStorage.insert (VecStorage.insert s ⟨i, g1⟩ A) ⟨i, g2⟩ B)
      ⟨i, g2⟩ = some B ∧
    VecStorage.get (VecStorage.insert (VecStorage.insert s ⟨i, g1⟩ A) ⟨i, g2⟩ B)
      ⟨i, g1⟩ = none := by
  have hslot :
      (VecStorage.insert (VecStorage.insert s ⟨i, g1⟩ A) ⟨i, g2⟩ B)[i]? =
        some (some (g2, B)) :=
    VecStorage.getElem?_insert_self (VecStorage.insert s ⟨i, g1⟩ A) ⟨i, g2⟩ B
  refine ⟨hslot, ?_, ?_⟩
  · simp [VecStorage.get, Entity.get_id, Entity.get_gen, hslot]
  · simp [VecStorage.get, Entity.get_id, Entity.get_gen, hslot, Ne.symm h]

/-- Witness for C3 at concrete inputs. -/
theorem c3_witness :
    (1 : Nat) ≠ 2 ∧
    ((VecStorage.insert (VecStorage.insert (VecStorage.new Nat) ⟨0, 1⟩ 10) ⟨0, 2⟩ 20)[0]? =
       some (some (2, 20)) ∧
     VecStorage.get
       (VecStorage.insert (VecStorage.insert (VecStorage.new Nat) ⟨0, 1⟩ 10) ⟨0, 2⟩ 20)
       ⟨0, 2⟩ = some 20 ∧
     VecStorage.get
       (VecStorage.insert (VecStorage.insert (VecStorage.new Nat) ⟨0, 1⟩ 10) ⟨0, 2⟩ 20)
       ⟨0, 1⟩ = none) :=
  ⟨by decide, c3_dense_last_writer_wins (VecStorage.new Nat) 0 1 2 10 20 (by decide)⟩

/-- C4: Sparse coexistence across generations — after `insert((i, g1), A)`
and `insert((i, g2), B)` with `g1 ≠ g2` (neither removed nor deleted), both
entries are live: `get((i, g1))` returns `A` and `get((i, g2))` returns `B`
simultaneously. -/
theorem c4_sparse_coexistence {T : Type} (m : HashMapStorage T)
    (i g1 g2 : Nat) (A B : T) (h : g1 ≠ g2) :
    HashMapStorage.get
      (HashMapStorage.insert (HashMapStorage.insert m ⟨i, g1⟩ A) ⟨i, g2⟩ B)
      ⟨i, g1⟩ = some A ∧
    HashMapStorage.get
      (HashMapStorage.insert (HashMapStorage.insert m ⟨i, g1⟩ A) ⟨i, g2⟩ B)
      ⟨i, g2⟩ = some B := by
  constructor
  · simp [HashMapStorage.get, HashMapStorage.insert, List.eraseP_cons,
      List.find?_cons, Entity.mk.injEq, h, Ne.symm h]
  · simp [HashMapStorage.get, HashMapStorage.insert, List.find?_cons]

/-- Witness for C4 at concrete inputs. -/
theorem c4_witness :
    (1 : Nat) ≠ 2 ∧
    (HashMapStorage.get
       (HashMapStorage.insert
         (HashMapStorage.insert (HashMapStorage.new Nat) ⟨0, 1⟩ 10) ⟨0, 2⟩ 20)
       ⟨0, 1⟩ = some 10 ∧
     HashMapStorage.get
       (HashMapStorage.insert
         (HashMapStorage.insert (HashMapStorage.new Nat) ⟨0, 1⟩ 10) ⟨0, 2⟩ 20)
       ⟨0, 2⟩ = some 20) :=
  ⟨by decide, c4_sparse_coexistence (HashMapStorage.new Nat) 0 1 2 10 20 (by decide)⟩

/-- C5: Remove is generation-exact and atomic on failure — in both
strategies, when the entry at index `i` is stored under generation
`g_right` (and, for the sparse strategy, nothing is stored under the exact
key `(i, g_wrong)`), `remove((i, g_wrong))` with `g_wrong ≠ g_right`
returns `none` and leaves the storage completely unmodified; the entry
remains retrievable via `get((i, g_right))`. -/
theorem c5_remove_generation_exact {T : Type} (s : VecStorage T)
    (i gr gw : Nat) (v : T) (hs : s[i]? = some (some (gr, v)))
    (hne : gw ≠ gr) (m : HashMapStorage T)
    (hm : HashMapStorage.get m ⟨i, gr⟩ = some v)
    (hmn : HashMapStorage.get m ⟨i, gw⟩ = none) :
    VecStorage.remove s ⟨i, gw⟩ = (none, s) ∧
    VecStorage.get s ⟨i, gr⟩ = some v ∧
    HashMapStorage.remove m ⟨i, gw⟩ = (none, m) ∧
    HashMapStorage.get m ⟨i, gr⟩ = some v := by
  refine ⟨?_, ?_, ?_, hm⟩
  · unfold VecStorage.remove
    have hid : (⟨i, gw⟩ : Entity).get_id = i := rfl
    rw [hid, hs]
    simp [Entity.get_gen, Ne.symm hne]
  · simp [VecStorage.get, Entity.get_id, Entity.get_gen, hs]
  · unfold HashMapStorage.remove
    rw [hmn, HashMapStorage.eraseP_eq_self_of_get_none hmn]

/-- Witness for C5 at concrete inputs. -/
theorem c5_witness :
    ([some (2, 7)] : VecStorage Nat)[0]? = some (some (2, 7)) ∧
    (1 : Nat) ≠ 2 ∧
    HashMapStorage.get ([(⟨0, 2⟩, 7)] : HashMapStorage Nat) ⟨0, 2⟩ = some 7 ∧
    HashMapStorage.get ([(⟨0, 2⟩, 7)] : HashMapStorage Nat) ⟨0, 1⟩ = none ∧
    (VecStorage.remove ([some (2, 7)] : VecStorage Nat) ⟨0, 1⟩ =
       (none, [some (2, 7)]) ∧
     VecStorage.get ([some (2, 7)] : VecStorage Nat) ⟨0, 2⟩ = some 7 ∧
     HashMapStorage.remove ([(⟨0, 2⟩, 7)] : HashMapStorage Nat) ⟨0, 1⟩ =
       (none, [(⟨0, 2⟩, 7)]) ∧
     HashMapStorage.get ([(⟨0, 2⟩, 7)] : HashMapStorage Nat) ⟨0, 2⟩ = some 7) :=
  ⟨by decide, by decide, by decide, by decide,
   c5_remove_generation_exact [some (2, 7)] 0 2 1 7 (by decide) (by decide)
     [(⟨0, 2⟩, 7)] (by decide) (by decide)⟩

/-- C6: Dense delete is generation-unconditional — after
`insert((i, g1), v)`, calling `del((i, g2))` for any `g2` (equal to `g1`
or not) clears the slot at index `i`, so `get((i, g1))` returns `none`. -/
theorem c6_dense_del_unconditional {T : Type} (s : VecStorage T)
    (i g1 g2 : Nat) (v : T) :
    (VecStorage.del (VecStorage.insert s ⟨i, g1⟩ v) ⟨i, g2⟩)[i]? = some none ∧
    VecStorage.get (VecStorage.del (VecStorage.insert s ⟨i, g1⟩ v) ⟨i, g2⟩)
      ⟨i, g1⟩ = none := by
  have hslot : (VecStorage.insert s ⟨i, g1⟩ v)[i]? = some (some (g1, v)) :=
    VecStorage.getElem?_insert_self s ⟨i, g1⟩ v
  have hdel : VecStorage.del (VecStorage.insert s ⟨i, g1⟩ v) ⟨i, g2⟩ =
      List.set (VecStorage.insert s ⟨i, g1⟩ v) i none := by
    unfold VecStorage.del
    have hid : (⟨i, g2⟩ : Entity).get_id = i := rfl
    rw [hid, hslot]
  have hlen : i < (VecStorage.insert s ⟨i, g1⟩ v).length := by
    have := VecStorage.length_insert s ⟨i, g1⟩ v
    rw [this]
    have hid : (⟨i, g1⟩ : Entity).get_id = i := rfl
    rw [hid]
    omega
  constructor
  · rw [hdel]
    exact List.getElem?_set_self hlen
  · rw [hdel]
    simp [VecStorage.get, Entity.get_id, List.getElem?_set_self hlen]

/-- C7: Sparse delete is generation-exact — after `insert((i, g1), v)` into
a sparse storage holding nothing under the exact key `(i, g2)`, calling
`del((i, g2))` with `g2 ≠ g1` is a no-op that leaves the storage unchanged,
so `get((i, g1))` still returns `v`. -/
theorem c7_sparse_del_exact {T : Type} (m : HashMapStorage T)
    (i g1 g2 : Nat) (v : T) (h : g1 ≠ g2)
    (hmn : HashMapStorage.get m ⟨i, g2⟩ = none) :
    HashMapStorage.del (HashMapStorage.insert m ⟨i, g1⟩ v) ⟨i, g2⟩ =
      HashMapStorage.insert m ⟨i, g1⟩ v ∧
    HashMapStorage.get
      (HashMapStorage.del (HashMapStorage.insert m ⟨i, g1⟩ v) ⟨i, g2⟩)
      ⟨i, g1⟩ = some v := by
  have hd : HashMapStorage.del (HashMapStorage.insert m ⟨i, g1⟩ v) ⟨i, g2⟩ =
      HashMapStorage.insert m ⟨i, g1⟩ v := by
    unfold HashMapStorage.del HashMapStorage.insert
    rw [List.eraseP_cons]
    have hhead : (decide ((⟨i, g1⟩ : Entity) = ⟨i, g2⟩)) = false := by
      simp [Entity.mk.injEq, h]
    simp only [hhead, cond_false]
    congr 1
    apply List.eraseP_of_forall_not
    intro a ha
    simpa using
      HashMapStorage.not_key_of_get_none hmn a (List.mem_of_mem_eraseP ha)
  refine ⟨hd, ?_⟩
  rw [hd]
  exact HashMapStorage.get_insert_same_key m ⟨i, g1⟩ v

/-- Witness for C7 at concrete inputs. -/
theorem c7_witness :
    (1 : Nat) ≠ 2 ∧
    HashMapStorage.get (HashMapStorage.new Nat) ⟨0, 2⟩ = none ∧
    (HashMapStorage.del
       (HashMapStorage.insert (HashMapStorage.new Nat) ⟨0, 1⟩ 7) ⟨0, 2⟩ =
       HashMapStorage.insert (HashMapStorage.new Nat) ⟨0, 1⟩ 7 ∧
     HashMapStorage.get
       (HashMapStorage.del
         (HashMapStorage.insert (HashMapStorage.new Nat) ⟨0, 1⟩ 7) ⟨0, 2⟩)
       ⟨0, 1⟩ = some 7) :=
  ⟨by decide, by decide,
   c7_sparse_del_exact (HashMapStorage.new Nat) 0 1 2 7 (by decide) (by decide)⟩

/-- C8: Dense growth monotonicity — inserting at index `k` leaves every
existing slot at an index `j < k` unchanged (and `get` for any entity with
index below `k` is undisturbed), and the length of the backing sequence
never decreases across any sequence of `get`/`get_mut`/`insert`/`remove`
/`del` calls. -/
theorem c8_dense_growth_monotonic {T : Type} (s : VecStorage T)
    (k g : Nat) (v : T) (j : Nat) (hjk : j < k) (hjs : j < s.length)
    (e : Entity) (he : e.get_id < k) (ops : List (StorageOp T)) :
    (VecStorage.insert s ⟨k, g⟩ v)[j]? = s[j]? ∧
    VecStorage.get (VecStorage.insert s ⟨k, g⟩ v) e = VecStorage.get s e ∧
    s.length ≤ (VecStorage.run s ops).length := by
  refine ⟨?_, ?_, VecStorage.length_le_run s ops⟩
  · unfold VecStorage.insert
    simp only [Entity.get_id, Entity.get_gen]
    rw [List.getElem?_set_ne (show k ≠ j from by omega)]
    exact VecStorage.getElem?_grow_of_lt s _ hjs
  · exact VecStorage.get_insert_of_ne_id s ⟨k, g⟩ v e (show e.get_id ≠ k from by omega)

/-- Witness for C8 at concrete inputs. -/
theorem c8_witness :
    (0 : Nat) < 2 ∧
    (0 : Nat) < ([some (1, 5)] : VecStorage Nat).length ∧
    (Entity.get_id ⟨0, 1⟩ < 2 ∧
     ((VecStorage.insert ([some (1, 5)] : VecStorage Nat) ⟨2, 1⟩ 9)[0]? =
        ([some (1, 5)] : VecStorage Nat)[0]? ∧
      VecStorage.get (VecStorage.insert ([some (1, 5)] : VecStorage Nat) ⟨2, 1⟩ 9)
        ⟨0, 1⟩ = VecStorage.get ([some (1, 5)] : VecStorage Nat) ⟨0, 1⟩ ∧
      ([some (1, 5)] : VecStorage Nat).length ≤
        (VecStorage.run ([some (1, 5)] : VecStorage Nat)
          [StorageOp.remove ⟨0, 1⟩, StorageOp.del ⟨0, 3⟩]).length)) :=
  ⟨by decide, by decide, by decide,
   c8_dense_growth_monotonic [some (1, 5)] 2 1 9 0 (by decide) (by decide)
     ⟨0, 1⟩ (by decide) [StorageOp.remove ⟨0, 1⟩, StorageOp.del ⟨0, 3⟩]⟩

/-- C9: Totality of dense operations for arbitrary entities — for an
entity whose index is at or beyond the backing vector's length, `get`,
`get_mut` and `remove` return `none` without failing and leave the storage
unchanged, `del` returns without effect, and the growth loop preceding
`insert`'s direct indexed write always makes that write in-bounds. -/
theorem c9_dense_totality {T : Type} (s : VecStorage T) (e : Entity)
    (h : s.length ≤ e.get_id) :
    VecStorage.get s e = none ∧
    VecStorage.get_mut s e = none ∧
    VecStorage.remove s e = (none, s) ∧
    VecStorage.del s e = s ∧
    ∀ (s2 : VecStorage T) (id : Nat), id < (VecStorage.grow s2 id).length :=
  ⟨VecStorage.get_of_le_id h, VecStorage.get_mut_of_le_id h,
   VecStorage.remove_of_le_id h, VecStorage.del_of_le_id h,
   fun s2 id => VecStorage.id_lt_length_grow s2 id⟩

/-- Witness for C9 at concrete inputs. -/
theorem c9_witness :
    ([some (1, 5)] : VecStorage Nat).length ≤ Entity.get_id ⟨4, 2⟩ ∧
    (VecStorage.get ([some (1, 5)] : VecStorage Nat) ⟨4, 2⟩ = none ∧
     VecStorage.get_mut ([some (1, 5)] : VecStorage Nat) ⟨4, 2⟩ = none ∧
     VecStorage.remove ([some (1, 5)] : VecStorage Nat) ⟨4, 2⟩ =
       (none, [some (1, 5)]) ∧
     VecStorage.del ([some (1, 5)] : VecStorage Nat) ⟨4, 2⟩ = [some (1, 5)] ∧
     ∀ (s2 : VecStorage Nat) (id : Nat), id < (VecStorage.grow s2 id).length) :=
  ⟨by decide, c9_dense_totality [some (1, 5)] ⟨4, 2⟩ (by decide)⟩

/-- C10: Dense delete on a never-grown index is a no-op — `del(e)` with
`e.index` at or beyond the backing vector's length leaves the storage
entirely unchanged: no growth, no new slot, no existing entry affected. -/
theorem c10_dense_del_out_of_range_noop {T : Type} (s : VecStorage T)
    (e : Entity) (h : s.length ≤ e.get_id) : VecStorage.del s e = s :=
  VecStorage.del_of_le_id h

/-- Witness for C10 at concrete inputs. -/
theorem c10_witness :
    ([some (1, 5), none] : VecStorage Nat).length ≤ Entity.get_id ⟨7, 3⟩ ∧
    VecStorage.del ([some (1, 5), none] : VecStorage Nat) ⟨7, 3⟩ =
      [some (1, 5), none] :=
  ⟨by decide, c10_dense_del_out_of_range_noop [some (1, 5), none] ⟨7, 3⟩ (by decide)⟩
